import Mathlib

set_option maxHeartbeats 1000000

/-!
A shallow embedding of the guide-generation engine of `be_scan`
(`src/be_scan/sgrna/generate_guides.py`, function `generate_BE_guides`),
together with theorems settling the frozen claims about it.

Conventions of the embedding:
* Python strings are `List Char`; Python heterogeneous lists (the candidate
  guide records, which the source mutates with `append`) are `List PyVal`.
* Machine integers are `Int` (Python ints are unbounded, so no wrap-around).
* Fallible code returns `Except PyErr`; Python `assert` failures are
  `PyErr.assertionError`, out-of-range list subscripts are `PyErr.indexError`.
* The helper modules `be_scan.sgrna._genomic_`, `_guides_` and `_gene_` are
  not part of the given sources; the definitions taken from them are marked
  `Modelled from the spec:` in their doc comments and follow the spec text.
  Everything in `generate_BE_guides` itself follows the source line by line.
-/

namespace BeScan

/-- A Python runtime value as it occurs in the guide records: strings,
integers, and the 2-tuples of integers used for the editing window. -/
inductive PyVal where
  | str : List Char → PyVal
  | int : Int → PyVal
  | pair : Int → Int → PyVal
  deriving DecidableEq, Repr

/-- The errors `generate_BE_guides` can raise: the explicit
`raise Exception('Improper cas type input, ...')`, a failed `assert`,
and an out-of-range list subscript. -/
inductive PyErr where
  | improperCasType : PyErr
  | assertionError : PyErr
  | indexError : PyErr
  deriving DecidableEq, Repr

/-- The pipeline stages of the orchestrator, in the order the source executes
them; the trace of completed stages is returned next to the result. -/
inductive Stage where
  | geneParsed : Stage
  | metadataExtracted : Stage
  | guidesEnumerated : Stage
  | guidesFiltered : Stage
  | deduplicated : Stage
  | exported : Stage
  deriving DecidableEq, Repr

/-- Reading `x[i]` from a Python heterogeneous list when the element is a
string.  In every use below the element at `i` exists and is a string, so the
`[]` default is never observed. -/
def getStr (x : List PyVal) (i : Nat) : List Char :=
  match x.get? i with
  | some (PyVal.str s) => s
  | _ => []

/-- Reading `x[i]` from a Python heterogeneous list when the element is an
integer.  In every use below the element at `i` exists and is an integer, so
the `0` default is never observed. -/
def getInt (x : List PyVal) (i : Nat) : Int :=
  match x.get? i with
  | some (PyVal.int n) => n
  | _ => 0

/-- Normalisation of a Python slice bound: negative bounds count from the end
of the string, and bounds are clamped to `[0, len]`. -/
def pyIdx (len : Nat) (i : Int) : Nat :=
  let j := if i < 0 then i + len else i
  (max 0 (min j len)).toNat

/-- Python's `s[a:b]` (step 1) on a string modelled as `List Char`. -/
def pySlice (s : List Char) (a b : Int) : List Char :=
  (s.take (pyIdx s.length b)).drop (pyIdx s.length a)

/-- Python's `s[i:i+n]` for natural `i`, `n`: the window of length `n`
starting at `i` (shorter if it runs off the end). -/
def sliceN (s : List Char) (i n : Nat) : List Char :=
  (s.drop i).take n

/-- Python's `str.isupper`: true iff the string has at least one cased
character and no cased character is lowercase (over the ASCII alphabet used
by the sequences here). -/
def pyIsUpper (s : List Char) : Bool :=
  s.any (fun c => c.isUpper || c.isLower) && s.all (fun c => !c.isLower)

/-- Modelled from the spec: the accepted nucleotide alphabet used to validate
`edit_from` / `edit_to` (`_genomic_.bases`). -/
def bases : List Char := ['A', 'C', 'G', 'T']

/-- Modelled from the spec: the fixed Cas-type→PAM lookup table
(`_genomic_.cas_key`); the spec names Sp, SpG, SpRY as example keys. -/
def cas_key : List (String × String) :=
  [("Sp", "NGG"), ("SpG", "NGN"), ("SpRY", "NNN")]

/-- Modelled from the spec: the case-preserving base-complement table
(`_genomic_.complements`). -/
def complements : List (Char × Char) :=
  [('A', 'T'), ('T', 'A'), ('C', 'G'), ('G', 'C'),
   ('a', 't'), ('t', 'a'), ('c', 'g'), ('g', 'c')]

/-- Complement of a single base via the table; characters outside the table
(never produced by the inputs considered here) are mapped to `?`. -/
def complementChar (comps : List (Char × Char)) (c : Char) : Char :=
  (comps.lookup c).getD '?'

/-- Modelled from the spec: `_genomic_.rev_complement`, the case-preserving
reverse complement of a sequence. -/
def rev_complement (comps : List (Char × Char)) (s : List Char) : List Char :=
  (s.map (complementChar comps)).reverse

/-- Modelled from the spec: the set of concrete bases denoted by one
(possibly ambiguity-coded) PAM character. -/
def pam_char_set (c : Char) : List Char :=
  if c = 'N' then ['A', 'C', 'G', 'T']
  else if c = 'R' then ['A', 'G']
  else if c = 'Y' then ['C', 'T']
  else [c]

/-- Modelled from the spec: `_genomic_.process_PAM` compiles an
ambiguity-coded PAM string into a positional matcher (here: the list of
admissible base sets, one per PAM position). -/
def process_PAM (PAM : String) : List (List Char) :=
  PAM.toList.map pam_char_set

/-- A compiled PAM matches a candidate sequence at the fixed position
immediately adjacent to (here: the tail of) the guide window; matching is
case-insensitive, as intron bases are stored lowercase. -/
def pam_match (regex : List (List Char)) (s : List Char) : Bool :=
  decide (regex.length ≤ s.length) &&
    ((s.drop (s.length - regex.length)).zip regex).all
      (fun cp => cp.2.contains cp.1.toUpper)

/-- Modelled from the spec: `_guides_.filter_guide` — a pure predicate, true
iff (a) the PAM pattern matches at its fixed offset and (b) at least one base
within the inclusive editing-window positions `[w0, w1]` of the candidate's
sequence equals the edit-from base. -/
def filter_guide (g : List PyVal) (PAM_regex : List (List Char)) (PAM : String)
    (edit : Char × Char) (window : Int × Int) : Bool :=
  pam_match PAM_regex (getStr g 0) &&
    (pySlice (getStr g 0) window.1 (window.2 + 1)).any (fun c => decide (c = edit.1))

/-- The duplication key of `_guides_.filter_repeats`: the (sequence, anchor
index) pair of a candidate record. -/
def guideKey (g : List PyVal) : List Char × Int :=
  (getStr g 0, getInt g 2)

/-- Worker for `filter_repeats`: keeps the first occurrence of every
duplication key, dropping later repeats, preserving order. -/
def filter_repeats_aux (seen : List (List Char × Int)) :
    List (List PyVal) → List (List PyVal)
  | [] => []
  | g :: gs =>
    if guideKey g ∈ seen then filter_repeats_aux seen gs
    else g :: filter_repeats_aux (guideKey g :: seen) gs

/-- Modelled from the spec: `_guides_.filter_repeats` removes exact-duplicate
candidates within one strand's collection, duplication being identical
(sequence, anchor index) pairs. -/
def filter_repeats (gs : List (List PyVal)) : List (List PyVal) :=
  filter_repeats_aux [] gs

/-- Number of uppercase (exonic) bases strictly before position `i`. -/
def upperCountBefore (s : List Char) (i : Nat) : Nat :=
  ((s.take i).filter Char.isUpper).length

/-- Modelled from the spec: the coding frame of position `i` — cycling 0,1,2
across exonic (uppercase) bases only; intronic positions are marked
not-applicable with `-1`. -/
def frameAt (s : List Char) (i : Nat) : Int :=
  match s.get? i with
  | some c => if c.isUpper then (upperCountBefore s i : Int) % 3 else -1
  | none => -1

/-- Whether position `j` starts a maximal uppercase (exon) run. -/
def isExonStart (s : List Char) (j : Nat) : Bool :=
  match s.get? j with
  | some c => c.isUpper && (j == 0 || !(((s.get? (j - 1)).getD 'a').isUpper))
  | none => false

/-- Modelled from the spec: the exon index of position `i` — exon numbering
counts uppercase runs only; positions before the first exon get `-1`. -/
def exonAt (s : List Char) (i : Nat) : Int :=
  (((List.range (i + 1)).filter (isExonStart s)).length : Int) - 1

/-- Modelled from the spec: the forward candidates of
`_gene_.GeneForCRISPR.find_all_guides` — sliding a window of `n` bases across
the sequence.  Each candidate carries five fields, (sequence window, starting
frame, chromosome position of the first base, gene position of the first
base, exon number at the anchor): the source's 11 output column names
(`chr_pos` and `gene_pos` among them) require the two separate position
fields, and the spec's genomic position is the identity mapping of the gene
position (no offset is supplied through this interface), so both hold the
anchor index. -/
def find_fwd_guides (s : List Char) (n : Nat) : List (List PyVal) :=
  (List.range (s.length + 1 - n)).map (fun i =>
    [PyVal.str (sliceN s i n), PyVal.int (frameAt s i),
     PyVal.int (i : Int), PyVal.int (i : Int), PyVal.int (exonAt s i)])

/-- Modelled from the spec: the reverse candidates of `find_all_guides`, with
the same five fields as `find_fwd_guides` — the sequence carried is the
reverse complement of the window (the guide as read on the antisense strand)
and the anchor is the index of the last base of the window. -/
def find_rev_guides (s : List Char) (n : Nat) : List (List PyVal) :=
  (List.range (s.length + 1 - n)).map (fun i =>
    [PyVal.str (rev_complement complements (sliceN s i n)),
     PyVal.int (frameAt s (i + n - 1)),
     PyVal.int ((i + n - 1 : Nat) : Int), PyVal.int ((i + n - 1 : Nat) : Int),
     PyVal.int (exonAt s (i + n - 1))])

/-- Modelled from the spec: the state of `_gene_.GeneForCRISPR` after
`parse_exons`, `extract_metadata` and `find_all_guides` — the raw
case-encoded sequence, the gene strand indicator, and the two enumerated
candidate collections. -/
structure GeneForCRISPR where
  seq : List Char
  strand : List Char
  fwd_guides : List (List PyVal)
  rev_guides : List (List PyVal)
  deriving DecidableEq, Repr

/-- Building the gene object for a raw sequence: preprocessing as performed
at the top of `generate_BE_guides` (parse, metadata, guide enumeration with
window length `n`). -/
def mk_gene (raw : List Char) (strand : List Char) (n : Nat) : GeneForCRISPR :=
  { seq := raw, strand := strand,
    fwd_guides := find_fwd_guides raw n,
    rev_guides := find_rev_guides raw n }

def senseChars : List Char := "sense".toList

def antisenseChars : List Char := "antisense".toList

def exonChars : List Char := "Exon".toList

def exonIntronChars : List Char := "Exon/Intron".toList

/-- The forward-strand annotation loop body of `generate_BE_guides`
(source lines 116–122), mirroring the six `append`s and their positional
reads: `x.append(x[0])`, `x.append('sense')`, `x.append(gene.strand)`,
`x.append((x[2]+window[0], x[2]+window[1]))`, `x.append(gene_name)`,
`x.append("Exon" if (x[5][window[0]:window[1]+1].isupper()) else
"Exon/Intron")`, each read taken from the list as already extended: for the
five-field candidate records of the enumeration, `x[5]` at the final read is
the coding sequence appended first. -/
def annotate_fwd (geneStrand gname : List Char) (w0 w1 : Int)
    (x0 : List PyVal) : List PyVal :=
  let x1 := x0 ++ [(x0.get? 0).getD (PyVal.str [])]
  let x2 := x1 ++ [PyVal.str senseChars]
  let x3 := x2 ++ [PyVal.str geneStrand]
  let x4 := x3 ++ [PyVal.pair (getInt x3 2 + w0) (getInt x3 2 + w1)]
  let x5 := x4 ++ [PyVal.str gname]
  x5 ++ [PyVal.str (if pyIsUpper (pySlice (getStr x5 5) w0 (w1 + 1))
                    then exonChars else exonIntronChars)]

/-- The reverse-strand annotation loop body of `generate_BE_guides`
(source lines 123–129): as `annotate_fwd` but the first append is
`rev_complement(complements, x[0])`, the strand label is `'antisense'`, and
the editing window is `(x[2]-window[0], x[2]-window[1])`. -/
def annotate_rev (geneStrand gname : List Char) (w0 w1 : Int)
    (x0 : List PyVal) : List PyVal :=
  let x1 := x0 ++ [PyVal.str (rev_complement complements (getStr x0 0))]
  let x2 := x1 ++ [PyVal.str antisenseChars]
  let x3 := x2 ++ [PyVal.str geneStrand]
  let x4 := x3 ++ [PyVal.pair (getInt x3 2 - w0) (getInt x3 2 - w1)]
  let x5 := x4 ++ [PyVal.str gname]
  x5 ++ [PyVal.str (if pyIsUpper (pySlice (getStr x5 5) w0 (w1 + 1))
                    then exonChars else exonIntronChars)]

/-- The column names of the output dataframe (source lines 132–139). -/
def column_names : List String :=
  ["sgRNA_seq", "starting_frame", "chr_pos", "gene_pos", "coding_seq",
   "exon", "sgRNA_strand", "gene_strand", "editing_window", "gene",
   "win_overlap"]

/-- The deduplication key of a row: the value the dataframe pairs with the
column name `coding_seq`, i.e. the row entry at position 4 (the index of
`coding_seq` in `column_names`).  For the rows the annotation actually
builds — five candidate fields followed by six appends — position 4 holds the
candidates' exon field, while the appended coding sequence sits at
position 5 under the label `exon`. -/
def rowKey (r : List PyVal) : Option PyVal :=
  r.get? 4

/-- The cross-strand deduplication of `generate_BE_guides` (source lines
142–144): `df.duplicated(subset='coding_seq', keep=False)` marks every row
whose key occurs more than once, and `df[~duplicate_rows]` keeps, in order,
exactly the rows whose key occurs exactly once.  The key is the `coding_seq`
*column* (position 4), which for the rows actually built holds the
candidates' exon field, not the appended coding sequence. -/
def drop_duplicate_rows (rows : List (List PyVal)) : List (List PyVal) :=
  rows.filter (fun r =>
    decide (rows.countP (fun r2 => decide (rowKey r2 = rowKey r)) = 1))

/-- The effective PAM string: the explicit `PAM` argument if given, else the
table entry for `cas_type` (source lines 92–95; the `""` default is
unreachable because the table membership of `cas_type` is checked first). -/
def effectivePAM (cas_type : String) (PAM : Option String) : String :=
  PAM.getD ((cas_key.lookup cas_type).getD "")

/-- The concatenated forward-plus-reverse annotated table (source lines
102–141, before deduplication): filter both strands with `filter_guide`,
remove repeats with `filter_repeats`, annotate each surviving candidate. -/
def annotated_rows (gene : GeneForCRISPR) (gname : List Char) (PAMs : String)
    (edit : Char × Char) (window : Int × Int) : List (List PyVal) :=
  let PAM_regex := process_PAM PAMs
  let fwd_results := filter_repeats
    (gene.fwd_guides.filter (fun g => filter_guide g PAM_regex PAMs edit window))
  let rev_results := filter_repeats
    (gene.rev_guides.filter (fun g => filter_guide g PAM_regex PAMs edit window))
  fwd_results.map (annotate_fwd gene.strand gname window.1 window.2) ++
    rev_results.map (annotate_rev gene.strand gname window.1 window.2)

/-- The table `generate_BE_guides` builds once all validations have passed:
the annotated rows of both strands with cross-strand deduplication applied. -/
def assemble_guides (gene : GeneForCRISPR) (gname : List Char) (PAMs : String)
    (edit : Char × Char) (window : Int × Int) : List (List PyVal) :=
  drop_duplicate_rows (annotated_rows gene gname PAMs edit window)

/-- The stages completed by the preprocessing block at the top of
`generate_BE_guides` (gene object creation, `parse_exons`,
`extract_metadata`, `find_all_guides`). -/
def preStages : List Stage :=
  [Stage.geneParsed, Stage.metadataExtracted, Stage.guidesEnumerated]

/-- The orchestrator `generate_BE_guides` (source lines 76–148), mirroring
the source statement by statement: preprocessing (always performed first),
the Cas-type table check, the edit-base `assert`, PAM resolution, the
window `assert`s (whose right-hand side dereferences `fwd_guides[0]`),
filtering, repeat removal, annotation, dataframe assembly, deduplication and
export.  The result is the trace of completed stages together with either
the raised error or the returned table. -/
def generate_BE_guides (raw geneStrand gname : List Char) (cas_type : String)
    (edit_from edit_to : Char) (PAM : Option String) (window : Int × Int)
    (n : Nat) : List Stage × Except PyErr (List (List PyVal)) :=
  if ¬ (cas_type ∈ cas_key.map Prod.fst) then
    (preStages, Except.error PyErr.improperCasType)
  else if ¬ (edit_from ∈ bases ∧ edit_to ∈ bases) then
    (preStages, Except.error PyErr.assertionError)
  else if ¬ (window.2 ≥ window.1 ∧ window.1 ≥ 0) then
    (preStages, Except.error PyErr.assertionError)
  else
    match (mk_gene raw geneStrand n).fwd_guides with
    | [] => (preStages, Except.error PyErr.indexError)
    | g0 :: _ =>
      if ¬ (window.2 ≤ ((getStr g0 0).length : Int)) then
        (preStages, Except.error PyErr.assertionError)
      else
        (preStages ++ [Stage.guidesFiltered, Stage.deduplicated, Stage.exported],
         Except.ok (assemble_guides (mk_gene raw geneStrand n) gname
           (effectivePAM cas_type PAM) (edit_from, edit_to) window))

end BeScan

/-! ## Helper lemmas -/

namespace BeScan

theorem filter_repeats_aux_sublist (seen : List (List Char × Int))
    (gs : List (List PyVal)) : (filter_repeats_aux seen gs).Sublist gs := by
  induction gs generalizing seen with
  | nil => simp [filter_repeats_aux]
  | cons g gs ih =>
    simp only [filter_repeats_aux]
    split
    · exact (ih seen).cons g
    · exact (ih _).cons₂ g

theorem filter_repeats_sublist (gs : List (List PyVal)) :
    (filter_repeats gs).Sublist gs :=
  filter_repeats_aux_sublist [] gs

/-- Every run of the orchestrator either completes all stages and returns the
assembled table, or stops after preprocessing with an error. -/
theorem generate_shape (raw gs gname : List Char) (cas : String) (ef et : Char)
    (pam : Option String) (w : Int × Int) (n : Nat) :
    generate_BE_guides raw gs gname cas ef et pam w n =
      (preStages ++ [Stage.guidesFiltered, Stage.deduplicated, Stage.exported],
        Except.ok (assemble_guides (mk_gene raw gs n) gname (effectivePAM cas pam)
          (ef, et) w))
    ∨ ∃ e, generate_BE_guides raw gs gname cas ef et pam w n =
        (preStages, Except.error e) := by
  unfold generate_BE_guides
  repeat' split
  all_goals first
    | (left; rfl)
    | (right; exact ⟨_, rfl⟩)

/-- When the sequence is long enough, the forward candidate list is nonempty
and its head carries a sequence of the full window length. -/
theorem find_fwd_guides_head {raw : List Char} {n : Nat} (h : n ≤ raw.length) :
    ∃ g0 rest, find_fwd_guides raw n = g0 :: rest ∧ (getStr g0 0).length = n := by
  unfold find_fwd_guides
  have h1 : raw.length + 1 - n = (raw.length - n) + 1 := by omega
  rw [h1, List.range_succ_eq_map, List.map_cons]
  refine ⟨_, _, rfl, ?_⟩
  show (sliceN raw 0 n).length = n
  simp [sliceN]
  omega

/-- The key count in the deduplicated table: 1 for keys that occurred exactly
once before deduplication, 0 for every other key. -/
theorem countP_drop_duplicate_rows (rows : List (List PyVal)) (v : Option PyVal) :
    (drop_duplicate_rows rows).countP (fun r => decide (rowKey r = v)) =
      if rows.countP (fun r => decide (rowKey r = v)) = 1 then 1 else 0 := by
  unfold drop_duplicate_rows
  rw [List.countP_filter]
  by_cases hc : rows.countP (fun r => decide (rowKey r = v)) = 1
  · rw [if_pos hc]
    have hcong : rows.countP (fun r => decide (rowKey r = v) &&
        decide (rows.countP (fun r2 => decide (rowKey r2 = rowKey r)) = 1)) =
        rows.countP (fun r => decide (rowKey r = v)) := by
      apply List.countP_congr
      intro r _
      constructor
      · intro h'
        rw [Bool.and_eq_true] at h'
        exact h'.1
      · intro h'
        have hrv : rowKey r = v := of_decide_eq_true h'
        rw [Bool.and_eq_true]
        refine ⟨h', ?_⟩
        rw [decide_eq_true_eq]
        have hfun : (fun r2 => decide (rowKey r2 = rowKey r)) =
            (fun r2 => decide (rowKey r2 = v)) := by
          funext r2
          rw [hrv]
        rw [hfun]
        exact hc
    rw [hcong]
    exact hc
  · rw [if_neg hc]
    rw [List.countP_eq_zero]
    intro r _ hcontra
    rw [Bool.and_eq_true] at hcontra
    have hrv : rowKey r = v := of_decide_eq_true hcontra.1
    have h2 := of_decide_eq_true hcontra.2
    apply hc
    have hfun : (fun r2 => decide (rowKey r2 = rowKey r)) =
        (fun r2 => decide (rowKey r2 = v)) := by
      funext r2
      rw [hrv]
    rw [hfun] at h2
    exact h2

/-- Filtering a concatenation of two mapped lists splits into the mapped
filters of the two lists. -/
theorem filter_map_append_split {α β : Type} (f g : α → β) (X Y : List α)
    (q : β → Bool) :
    (X.map f ++ Y.map g).filter q =
      (X.filter (fun a => q (f a))).map f ++
        (Y.filter (fun a => q (g a))).map g := by
  rw [List.filter_append, List.filter_map, List.filter_map]
  rfl

end BeScan

/-! ## Claim theorems -/

namespace BeScan

/-- C1 (amended): with an explicit PAM the supplied PAM (not the table entry)
is the one compiled and used for filtering whenever `cas_type` is in the
Cas-type table, but the Cas-type check is performed regardless of the
explicit PAM: an unknown `cas_type` raises the Cas-type error even when an
explicit PAM is given. -/
theorem claim1_pam_precedence (raw gs gname : List Char) (cas : String)
    (ef et : Char) (p : String) (w : Int × Int) (n : Nat)
    (h2 : ef ∈ bases) (h3 : et ∈ bases) (h4 : w.1 ≤ w.2) (h5 : 0 ≤ w.1)
    (hb : w.2 ≤ (n : Int)) (h6 : n ≤ raw.length) :
    (generate_BE_guides raw gs gname cas ef et (some p) w n).2 =
      (if cas ∈ cas_key.map Prod.fst then
        Except.ok (assemble_guides (mk_gene raw gs n) gname p (ef, et) w)
      else Except.error PyErr.improperCasType) := by
  obtain ⟨g0, rest, hg, hlen⟩ := find_fwd_guides_head h6
  unfold generate_BE_guides
  by_cases hc : cas ∈ cas_key.map Prod.fst
  · rw [if_pos hc, if_neg (not_not_intro hc), if_neg (not_not_intro ⟨h2, h3⟩),
      if_neg (not_not_intro ⟨h4, h5⟩)]
    rw [show (mk_gene raw gs n).fwd_guides = find_fwd_guides raw n from rfl, hg]
    dsimp only
    rw [hlen]
    rw [if_neg (not_not_intro hb)]
    rfl
  · rw [if_neg hc, if_pos hc]

/-- C1 witness: a valid call with an explicit PAM and a known Cas type. -/
theorem claim1_pam_precedence_witness :
    (generate_BE_guides "ACGTacgtACGT".toList "plus".toList "gene1".toList "Sp"
        'A' 'G' (some "NGG") (0, 3) 4).2 =
      (if "Sp" ∈ cas_key.map Prod.fst then
        Except.ok (assemble_guides (mk_gene "ACGTacgtACGT".toList "plus".toList 4)
          "gene1".toList "NGG" ('A', 'G') (0, 3))
      else Except.error PyErr.improperCasType) :=
  claim1_pam_precedence "ACGTacgtACGT".toList "plus".toList "gene1".toList "Sp"
    'A' 'G' "NGG" (0, 3) 4 (by decide) (by decide) (by decide) (by decide)
    (by decide) (by decide)

/-- C1 counterexample to the claim as stated: an unknown Cas type with an
explicit PAM still fails with the Cas-type error, so an explicit PAM does not
suppress the Cas-type check. -/
theorem claim1_pam_precedence_counterexample :
    (generate_BE_guides "ACGTacgtACGT".toList "plus".toList "gene1".toList "bogus"
        'A' 'G' (some "NGG") (0, 3) 4).2 = Except.error PyErr.improperCasType := rfl

/-- C2 (amended): whenever the orchestrator raises a validation error, the
completed stages are exactly the preprocessing stages — gene parsing,
metadata extraction and guide enumeration (so enumeration has already
happened) — and neither the filtering stage nor the export stage is reached,
so no output file is written. -/
theorem claim2_validation_timing (raw gs gname : List Char) (cas : String)
    (ef et : Char) (pam : Option String) (w : Int × Int) (n : Nat) (e : PyErr)
    (h : (generate_BE_guides raw gs gname cas ef et pam w n).2 = Except.error e) :
    (generate_BE_guides raw gs gname cas ef et pam w n).1 =
      [Stage.geneParsed, Stage.metadataExtracted, Stage.guidesEnumerated] ∧
    Stage.exported ∉ (generate_BE_guides raw gs gname cas ef et pam w n).1 ∧
    Stage.guidesFiltered ∉ (generate_BE_guides raw gs gname cas ef et pam w n).1 := by
  rcases generate_shape raw gs gname cas ef et pam w n with hok | ⟨e2, herr⟩
  · rw [hok] at h
    simp at h
  · rw [herr]
    refine ⟨rfl, ?_, ?_⟩
    · show Stage.exported ∉ preStages
      decide
    · show Stage.guidesFiltered ∉ preStages
      decide

/-- C2 witness: an unknown-Cas-type failure, at which the amended statement
is instantiated. -/
theorem claim2_validation_timing_witness :
    (generate_BE_guides "ACGTacgtACGT".toList "plus".toList "gene1".toList "bogus"
        'A' 'G' none (4, 8) 4).1 =
      [Stage.geneParsed, Stage.metadataExtracted, Stage.guidesEnumerated] ∧
    Stage.exported ∉ (generate_BE_guides "ACGTacgtACGT".toList "plus".toList
        "gene1".toList "bogus" 'A' 'G' none (4, 8) 4).1 ∧
    Stage.guidesFiltered ∉ (generate_BE_guides "ACGTacgtACGT".toList "plus".toList
        "gene1".toList "bogus" 'A' 'G' none (4, 8) 4).1 :=
  claim2_validation_timing "ACGTacgtACGT".toList "plus".toList "gene1".toList
    "bogus" 'A' 'G' none (4, 8) 4 PyErr.improperCasType rfl

/-- C2 counterexample to the claim as stated: on an invalid input the
guide-enumeration stage has completed even though a validation error is
raised, so the error is not raised before guide enumeration. -/
theorem claim2_validation_timing_counterexample :
    Stage.guidesEnumerated ∈
      (generate_BE_guides "ACGTacgtACGT".toList "plus".toList "gene1".toList "bogus"
        'A' 'G' none (4, 8) 4).1 ∧
    (generate_BE_guides "ACGTacgtACGT".toList "plus".toList "gene1".toList "bogus"
        'A' 'G' none (4, 8) 4).2 = Except.error PyErr.improperCasType :=
  ⟨by decide, rfl⟩

/-- C3 (amended): for the five-field candidate records the enumeration
produces, the `win_overlap` annotation is `"Exon"` exactly when the slice at
positions `[w0, w1]` of the candidate's *coding sequence* is uppercase (per
Python's `isupper`), and `"Exon/Intron"` otherwise — for a forward guide the
coding sequence is the window itself, so the claim holds as stated, but for
a reverse guide it is the reverse complement of the candidate's stored
sequence, not the window as enumerated on its strand. -/
theorem claim3_win_overlap_classification (gs gname : List Char) (w0 w1 : Int)
    (s : List Char) (f cp gp e : Int) :
    (((annotate_fwd gs gname w0 w1 [PyVal.str s, PyVal.int f, PyVal.int cp,
        PyVal.int gp, PyVal.int e]).get? 10 = some (PyVal.str exonChars)) ↔
      pyIsUpper (pySlice s w0 (w1 + 1)) = true) ∧
    ((annotate_fwd gs gname w0 w1 [PyVal.str s, PyVal.int f, PyVal.int cp,
        PyVal.int gp, PyVal.int e]).get? 10 = some (PyVal.str exonChars) ∨
      (annotate_fwd gs gname w0 w1 [PyVal.str s, PyVal.int f, PyVal.int cp,
        PyVal.int gp, PyVal.int e]).get? 10 = some (PyVal.str exonIntronChars)) ∧
    (((annotate_rev gs gname w0 w1 [PyVal.str s, PyVal.int f, PyVal.int cp,
        PyVal.int gp, PyVal.int e]).get? 10 = some (PyVal.str exonChars)) ↔
      pyIsUpper (pySlice (rev_complement complements s) w0 (w1 + 1)) = true) ∧
    ((annotate_rev gs gname w0 w1 [PyVal.str s, PyVal.int f, PyVal.int cp,
        PyVal.int gp, PyVal.int e]).get? 10 = some (PyVal.str exonChars) ∨
      (annotate_rev gs gname w0 w1 [PyVal.str s, PyVal.int f, PyVal.int cp,
        PyVal.int gp, PyVal.int e]).get? 10 = some (PyVal.str exonIntronChars)) := by
  have hf : (annotate_fwd gs gname w0 w1 [PyVal.str s, PyVal.int f, PyVal.int cp,
      PyVal.int gp, PyVal.int e]).get? 10 =
      some (PyVal.str (if pyIsUpper (pySlice s w0 (w1 + 1))
                       then exonChars else exonIntronChars)) := rfl
  have hr : (annotate_rev gs gname w0 w1 [PyVal.str s, PyVal.int f, PyVal.int cp,
      PyVal.int gp, PyVal.int e]).get? 10 =
      some (PyVal.str (if pyIsUpper (pySlice (rev_complement complements s)
                          w0 (w1 + 1))
                       then exonChars else exonIntronChars)) := rfl
  refine ⟨?_, ?_, ?_, ?_⟩
  · rw [hf]
    by_cases hb : pyIsUpper (pySlice s w0 (w1 + 1)) = true
    · rw [if_pos hb]
      simp [hb]
    · rw [if_neg hb]
      constructor
      · intro hcontra
        exact absurd hcontra (by decide)
      · intro hcontra
        exact absurd hcontra hb
  · rw [hf]
    by_cases hb : pyIsUpper (pySlice s w0 (w1 + 1)) = true
    · rw [if_pos hb]
      exact Or.inl rfl
    · rw [if_neg hb]
      exact Or.inr rfl
  · rw [hr]
    by_cases hb : pyIsUpper (pySlice (rev_complement complements s) w0 (w1 + 1)) = true
    · rw [if_pos hb]
      simp [hb]
    · rw [if_neg hb]
      constructor
      · intro hcontra
        exact absurd hcontra (by decide)
      · intro hcontra
        exact absurd hcontra hb
  · rw [hr]
    by_cases hb : pyIsUpper (pySlice (rev_complement complements s) w0 (w1 + 1)) = true
    · rw [if_pos hb]
      exact Or.inl rfl
    · rw [if_neg hb]
      exact Or.inr rfl

/-- C3 counterexample to the claim as stated: a reverse candidate whose
stored sequence is `ACgt` with window `(0, 1)` — positions 0–1 of the window
as enumerated on its strand are the uppercase `AC`, so the claim requires
`"Exon"`, but the code inspects the same positions of the reverse complement
`acGT` and annotates `"Exon/Intron"`. -/
theorem claim3_win_overlap_counterexample :
    pyIsUpper (pySlice "ACgt".toList 0 (1 + 1)) = true ∧
    (annotate_rev "plus".toList "gene1".toList 0 1
        [PyVal.str "ACgt".toList, PyVal.int 0, PyVal.int 3, PyVal.int 3,
         PyVal.int 0]).get? 10 = some (PyVal.str exonIntronChars) :=
  ⟨by decide, by decide⟩

/-- C4: deduplication never keys the coding-sequence value.  In the run on
gene `AACGTA` (guide length 4, PAM `N`, edit A→G, window `(0, 3)`) the
concatenated annotated table holds exactly one row whose coding sequence
(row position 5, the column labelled `exon`) is `AACG`, every row's
`coding_seq`-column key (`rowKey`, row position 4) is the integer exon
number `0`, and the final table — both as `drop_duplicate_rows` of the
annotated table and as returned by the orchestrator — is empty: the row
bearing the unique coding-sequence value `AACG` is removed because the six
appends leave the coding sequence 6th-from-last while `coding_seq` is
column 4 of the 11 column names. -/
theorem claim4_dedup_keys_mislabeled_column :
    (annotated_rows (mk_gene "AACGTA".toList "plus".toList 4) "gene1".toList "N"
        ('A', 'G') (0, 3)).countP
        (fun r => decide (r.get? 5 = some (PyVal.str "AACG".toList))) = 1 ∧
    (annotated_rows (mk_gene "AACGTA".toList "plus".toList 4) "gene1".toList "N"
        ('A', 'G') (0, 3)).countP
        (fun r => decide (rowKey r = some (PyVal.int 0))) = 5 ∧
    drop_duplicate_rows (annotated_rows (mk_gene "AACGTA".toList "plus".toList 4)
        "gene1".toList "N" ('A', 'G') (0, 3)) = [] ∧
    (generate_BE_guides "AACGTA".toList "plus".toList "gene1".toList "Sp" 'A' 'G'
        (some "N") (0, 3) 4).2 = Except.ok [] :=
  ⟨by decide, by decide, by decide, rfl⟩

/-- C5 (amended): given valid Cas type, edit bases and a sequence long
enough, the orchestrator raises the window `assert` error exactly when the
window violates `w0 ≤ w1 ∧ 0 ≤ w0 ∧ w1 ≤ L` — the upper check is the
non-strict `w1 ≤ L`, not the claimed strict `w1 < L`. -/
theorem claim5_window_validation (raw gs gname : List Char) (cas : String)
    (ef et : Char) (pam : Option String) (w : Int × Int) (n : Nat)
    (h1 : cas ∈ cas_key.map Prod.fst) (h2 : ef ∈ bases) (h3 : et ∈ bases)
    (h6 : n ≤ raw.length) :
    ((generate_BE_guides raw gs gname cas ef et pam w n).2 =
        Except.error PyErr.assertionError
      ↔ ¬ (w.1 ≤ w.2 ∧ 0 ≤ w.1 ∧ w.2 ≤ (n : Int))) := by
  obtain ⟨g0, rest, hg, hlen⟩ := find_fwd_guides_head h6
  unfold generate_BE_guides
  rw [if_neg (not_not_intro h1), if_neg (not_not_intro ⟨h2, h3⟩)]
  rw [show (mk_gene raw gs n).fwd_guides = find_fwd_guides raw n from rfl, hg]
  by_cases hw : w.1 ≤ w.2 ∧ 0 ≤ w.1
  · rw [if_neg (not_not_intro ⟨hw.1, hw.2⟩)]
    dsimp only
    rw [hlen]
    by_cases hb : w.2 ≤ (n : Int)
    · rw [if_neg (not_not_intro hb)]
      simp [hw.1, hw.2, hb]
    · rw [if_pos hb]
      simp [hw.1, hw.2, hb]
  · rw [if_pos (fun hcon => hw ⟨hcon.1, hcon.2⟩)]
    constructor
    · intro _
      exact fun hcon => hw ⟨hcon.1, hcon.2.1⟩
    · intro _
      rfl

/-- C5 witness: the window `(8, 4)` (with `w1 < w0`) is rejected with the
window `assert` error. -/
theorem claim5_window_validation_witness :
    ((generate_BE_guides "ACGTacgtACGT".toList "plus".toList "gene1".toList "Sp"
        'A' 'G' none (8, 4) 4).2 = Except.error PyErr.assertionError
      ↔ ¬ (((8, 4) : Int × Int).1 ≤ ((8, 4) : Int × Int).2 ∧
            0 ≤ ((8, 4) : Int × Int).1 ∧
            ((8, 4) : Int × Int).2 ≤ ((4 : Nat) : Int))) :=
  claim5_window_validation "ACGTacgtACGT".toList "plus".toList "gene1".toList
    "Sp" 'A' 'G' none (8, 4) 4 (by decide) (by decide) (by decide) (by decide)

/-- C5 counterexample to the claim as stated: a window with `w1 = L` (not
strictly below the guide length `L = 4`) is accepted and the pipeline
completes, returning the assembled table. -/
theorem claim5_window_validation_counterexample :
    (generate_BE_guides "ACGTacgtACGT".toList "plus".toList "gene1".toList "Sp"
        'A' 'G' (some "N") (0, 4) 4).2 =
      Except.ok (assemble_guides (mk_gene "ACGTacgtACGT".toList "plus".toList 4)
        "gene1".toList (effectivePAM "Sp" (some "N")) ('A', 'G') (0, 4)) := rfl

/-- C8: `filter_guide` returns true only if at least one base of the
inclusive editing-window slice of the candidate's sequence equals the
edit-from base. -/
theorem claim8_edit_base_in_window (g : List PyVal) (regex : List (List Char))
    (pam : String) (edit : Char × Char) (w : Int × Int)
    (h : filter_guide g regex pam edit w = true) :
    ∃ c ∈ pySlice (getStr g 0) w.1 (w.2 + 1), c = edit.1 := by
  rw [filter_guide, Bool.and_eq_true] at h
  obtain ⟨c, hc, hceq⟩ := List.any_eq_true.mp h.2
  exact ⟨c, hc, of_decide_eq_true hceq⟩

/-- C8 witness: a candidate passing the filter, with an `A` inside the
window. -/
theorem claim8_edit_base_in_window_witness :
    filter_guide [PyVal.str "ACGT".toList, PyVal.int 0, PyVal.int 0, PyVal.int 0]
        (process_PAM "N") "N" ('A', 'G') (0, 3) = true ∧
    ∃ c ∈ pySlice (getStr [PyVal.str "ACGT".toList, PyVal.int 0,
        PyVal.int 0, PyVal.int 0] 0) 0 (3 + 1), c = 'A' :=
  ⟨by decide, claim8_edit_base_in_window
    [PyVal.str "ACGT".toList, PyVal.int 0, PyVal.int 0, PyVal.int 0]
    (process_PAM "N") "N" ('A', 'G') (0, 3) (by decide)⟩

/-- C9: when the enumerated forward-candidate list is empty (and the earlier
validations pass), the window check dereferences the first forward candidate
and the orchestrator fails with an index error rather than returning a table. -/
theorem claim9_empty_fwd_guides_index_error (raw gs gname : List Char)
    (cas : String) (ef et : Char) (pam : Option String) (w : Int × Int) (n : Nat)
    (h1 : cas ∈ cas_key.map Prod.fst) (h2 : ef ∈ bases) (h3 : et ∈ bases)
    (h4 : w.1 ≤ w.2) (h5 : 0 ≤ w.1)
    (hempty : find_fwd_guides raw n = []) :
    (generate_BE_guides raw gs gname cas ef et pam w n).2 =
      Except.error PyErr.indexError := by
  unfold generate_BE_guides
  rw [if_neg (not_not_intro h1), if_neg (not_not_intro ⟨h2, h3⟩),
    if_neg (not_not_intro ⟨h4, h5⟩)]
  rw [show (mk_gene raw gs n).fwd_guides = find_fwd_guides raw n from rfl, hempty]

/-- C9 witness: a gene sequence shorter than the guide window length yields
no forward candidates, and the orchestrator fails with the index error. -/
theorem claim9_empty_fwd_guides_index_error_witness :
    (generate_BE_guides "ACG".toList "plus".toList "gene1".toList "Sp" 'A' 'G'
        none (4, 8) 4).2 = Except.error PyErr.indexError :=
  claim9_empty_fwd_guides_index_error "ACG".toList "plus".toList "gene1".toList
    "Sp" 'A' 'G' none (4, 8) 4 (by decide) (by decide) (by decide) (by decide)
    (by decide) (by decide)

/-- C10: every returned table consists of annotated forward candidates (an
order-preserving selection from the enumerated forward candidates) followed
by annotated reverse candidates (an order-preserving selection from the
enumerated reverse candidates): forward rows precede reverse rows and no
step reorders rows. -/
theorem claim10_row_order (raw gs gname : List Char) (cas : String)
    (ef et : Char) (pam : Option String) (w : Int × Int) (n : Nat)
    (F : List (List PyVal))
    (h : (generate_BE_guides raw gs gname cas ef et pam w n).2 = Except.ok F) :
    ∃ cf cr : List (List PyVal),
      List.Sublist cf (mk_gene raw gs n).fwd_guides ∧
      List.Sublist cr (mk_gene raw gs n).rev_guides ∧
      F = cf.map (annotate_fwd gs gname w.1 w.2) ++
          cr.map (annotate_rev gs gname w.1 w.2) := by
  rcases generate_shape raw gs gname cas ef et pam w n with hok | ⟨e, herr⟩
  · rw [hok] at h
    have hF := (Except.ok.inj h).symm
    subst hF
    simp only [assemble_guides, annotated_rows, drop_duplicate_rows, mk_gene]
    rw [filter_map_append_split]
    refine ⟨_, _, ?_, ?_, rfl⟩
    · exact ((List.filter_sublist _).trans (filter_repeats_sublist _)).trans
        (List.filter_sublist _)
    · exact ((List.filter_sublist _).trans (filter_repeats_sublist _)).trans
        (List.filter_sublist _)
  · rw [herr] at h
    simp at h

/-- C10 witness: the successful run of the C4 witness, instantiating the
order decomposition. -/
theorem claim10_row_order_witness :
    ∃ cf cr : List (List PyVal),
      List.Sublist cf (mk_gene "ACGTacgtACGT".toList "plus".toList 4).fwd_guides ∧
      List.Sublist cr (mk_gene "ACGTacgtACGT".toList "plus".toList 4).rev_guides ∧
      assemble_guides (mk_gene "ACGTacgtACGT".toList "plus".toList 4)
          "gene1".toList (effectivePAM "Sp" (some "N")) ('A', 'G') (0, 3) =
        cf.map (annotate_fwd "plus".toList "gene1".toList 0 3) ++
        cr.map (annotate_rev "plus".toList "gene1".toList 0 3) :=
  claim10_row_order "ACGTacgtACGT".toList "plus".toList "gene1".toList "Sp"
    'A' 'G' (some "N") (0, 3) 4 _ rfl

end BeScan
